import Mathlib

/-
Verification of the Zoho CRM client/session layer (src/services/zoho-client.ts,
src/types.ts, and the tool handlers of src/tools) against its design
specification.

The TypeScript client is shallowly embedded as pure Lean functions.  The
mutable module-level `config` and the network interactions are made explicit:

* `ZohoConfig` mirrors the `ZohoConfig` interface; the module-level mutable
  `config` becomes the `cfg` field of an explicit `World` that is threaded
  through every operation.
* Network effects are recorded in an event trace (`NetEvent`): one event per
  `fetch` to the OAuth token endpoint and one per `fetch` to the CRM API.
* The environment (`Env`) supplies the response to the n-th token-endpoint
  call and the n-th API call; it abstracts the remote servers.
* JavaScript string truthiness (`if (!config.accessToken)`, `if (data.error)`)
  is translated per the TypeScript field types: a `string`-typed field is a
  `String` whose truthiness is `≠ ""`; an optional `string | undefined` field
  is an `Option String`, falsy when `none` or `some ""`.
* `JSON.parse` / `JSON.stringify(x, null, 2)` are JS builtins, not repository
  code: parsing outcomes are supplied by the environment as part of each
  `HttpResponse` (`bodyJson` is the parse result of `bodyText`, `none` when
  parsing throws), while `Json.pretty` below is a concrete model of
  2-space-indented `JSON.stringify`.

Errors are the thrown `Error` messages of the source, as `Except String`.
-/

set_option autoImplicit false

namespace ZohoClient

/-- Mirror of the `ZohoConfig` interface (src/types.ts): the module-level
mutable `config` record of zoho-client.ts. -/
structure ZohoConfig where
  accessToken : String
  refreshToken : String
  clientId : String
  clientSecret : String
  apiDomain : String
  accountsDomain : String
  deriving Repr, DecidableEq

/-- Mirror of the `TokenResponse` interface (src/types.ts).  `error?: string`
is optional in TypeScript, hence `Option String`; the remaining string fields
are plain `String` (absent modelled as `""`, matching JS falsiness). -/
structure TokenResponse where
  access_token : String
  token_type : String
  expires_in : Nat
  api_domain : String
  refresh_token : Option String
  error : Option String
  deriving Repr, DecidableEq

mutual
/-- A JSON value, as produced by the platform JSON parser.  Numbers are
modelled as integers (no claim involves fractional numbers). -/
inductive Json where
  | null : Json
  | bool : Bool → Json
  | num : Int → Json
  | str : String → Json
  | arr : JsonList → Json
  | obj : JsonFields → Json
  deriving Repr, DecidableEq
/-- A list of JSON array elements (spelled out so that all recursion over
`Json` is plain structural recursion). -/
inductive JsonList where
  | nil : JsonList
  | cons : Json → JsonList → JsonList
  deriving Repr, DecidableEq
/-- An ordered list of JSON object members. -/
inductive JsonFields where
  | nil : JsonFields
  | cons : String → Json → JsonFields → JsonFields
  deriving Repr, DecidableEq
end

/-- Escape one character as inside a JSON string literal. -/
def jsonEscapeChar (c : Char) : String :=
  if c = '"' then "\\\""
  else if c = '\\' then "\\\\"
  else if c = '\n' then "\\n"
  else if c = '\t' then "\\t"
  else if c = '\r' then "\\r"
  else String.singleton c

/-- Quote a string as a JSON string literal. -/
def jsonQuote (s : String) : String :=
  "\"" ++ String.join (s.data.map jsonEscapeChar) ++ "\""

/-- A run of `n` spaces. -/
def spaces (n : Nat) : String :=
  String.mk (List.replicate n ' ')

mutual
/-- Model of the JS builtin `JSON.stringify(x, null, 2)`: pretty printing
with 2-space indentation.  `ind` is the indentation of the enclosing
container. -/
def Json.pretty : Nat → Json → String
  | _, .null => "null"
  | _, .bool b => if b then "true" else "false"
  | _, .num n => toString n
  | _, .str s => jsonQuote s
  | _, .arr .nil => "[]"
  | ind, .arr (.cons j tl) =>
      "[\n" ++ prettyElems (ind + 2) (JsonList.cons j tl) ++ "\n" ++ spaces ind ++ "]"
  | _, .obj .nil => "\x7b\x7d"
  | ind, .obj (.cons k v tl) =>
      "\x7b\n" ++ prettyMembers (ind + 2) (JsonFields.cons k v tl) ++ "\n" ++ spaces ind ++ "\x7d"
/-- Pretty-print array elements, one per line at indentation `ind`. -/
def prettyElems : Nat → JsonList → String
  | _, .nil => ""
  | ind, .cons j .nil => spaces ind ++ Json.pretty ind j
  | ind, .cons j (.cons j2 tl) =>
      spaces ind ++ Json.pretty ind j ++ ",\n" ++ prettyElems ind (JsonList.cons j2 tl)
/-- Pretty-print object members, one per line at indentation `ind`. -/
def prettyMembers : Nat → JsonFields → String
  | _, .nil => ""
  | ind, .cons k v .nil => spaces ind ++ jsonQuote k ++ ": " ++ Json.pretty ind v
  | ind, .cons k v (.cons k2 v2 tl) =>
      spaces ind ++ jsonQuote k ++ ": " ++ Json.pretty ind v ++ ",\n"
        ++ prettyMembers ind (JsonFields.cons k2 v2 tl)
end

/-- Top-level `JSON.stringify(x, null, 2)`. -/
def Json.prettyPrint (j : Json) : String := Json.pretty 0 j

/-- One network event issued by the client, in chronological order. -/
inductive NetEvent where
  /-- A `fetch` POST to `accountsDomain ++ "/oauth/v2/token"` issued by
  `refreshAccessToken`. -/
  | tokenPost : NetEvent
  /-- A `fetch` of the CRM API issued by `zohoRequest`, recording the URL,
  the HTTP method, the `Authorization` header value, and whether a JSON body
  was attached. -/
  | apiFetch (url method authHeader : String) (hasBody : Bool) : NetEvent
  deriving Repr, DecidableEq

/-- Whether an event is a token-endpoint POST. -/
def isTokenPost : NetEvent → Bool
  | .tokenPost => true
  | _ => false

/-- Whether an event is a CRM API fetch. -/
def isApiFetch : NetEvent → Bool
  | .apiFetch .. => true
  | _ => false

/-- Number of token-endpoint POSTs in a trace. -/
def tokenCount (tr : List NetEvent) : Nat := tr.countP isTokenPost

/-- Number of CRM API fetches in a trace. -/
def httpCount (tr : List NetEvent) : Nat := tr.countP isApiFetch

/-- Number of refresh network calls issued strictly before the first CRM API
fetch of a trace (the whole trace counts when no API fetch occurs). -/
def refreshesBeforeFirstHttp (tr : List NetEvent) : Nat :=
  tokenCount (tr.takeWhile (fun e => !isApiFetch e))

/-- A response of a CRM API `fetch`: the status, the raw body text as read by
`response.text()`, and the outcome of `JSON.parse` on that text (`none` when
parsing would throw).  `response.ok` is derived from the status. -/
structure HttpResponse where
  status : Nat
  bodyText : String
  bodyJson : Option Json
  deriving Repr, DecidableEq

/-- The remote servers: the response to the n-th token-endpoint POST and to
the n-th CRM API fetch of the process. -/
structure Env where
  tokenResp : Nat → TokenResponse
  httpResp : Nat → HttpResponse

/-- The client's observable state: the module-level `config` plus the
chronological trace of network events issued so far. -/
structure World where
  cfg : ZohoConfig
  trace : List NetEvent

/-- The state at the start of a dispatch call under configuration `cfg`,
with an empty trace (events of this call only). -/
def World.init (cfg : ZohoConfig) : World := ⟨cfg, []⟩

/-- The exact message of the configuration error thrown by
`refreshAccessToken` (zoho-client.ts lines 24-27). -/
def refreshConfigErrorMsg : String :=
  "Missing refresh token, client ID, or client secret. " ++
  "Set ZOHO_REFRESH_TOKEN, ZOHO_CLIENT_ID, and ZOHO_CLIENT_SECRET environment variables."

/-- Lines 49-54 of zoho-client.ts: write `data.access_token` into the config;
overwrite `apiDomain` when `data.api_domain` is truthy; return the token. -/
def applyTokenResponse (data : TokenResponse) (w : World) : Except String String × World :=
  let cfg1 := { w.cfg with accessToken := data.access_token }
  let cfg2 := if data.api_domain ≠ "" then { cfg1 with apiDomain := data.api_domain } else cfg1
  (Except.ok data.access_token, { w with cfg := cfg2 })

/-- Embedding of `refreshAccessToken` (zoho-client.ts lines 22-55).
`!config.refreshToken || !config.clientId || !config.clientSecret` is the
emptiness disjunction; the `fetch` + `response.json()` pair is one
`tokenPost` event whose `TokenResponse` the environment supplies;
`if (data.error)` is truthy exactly when `error` is `some e` with `e ≠ ""`. -/
def refreshAccessToken (env : Env) (w : World) : Except String String × World :=
  if w.cfg.refreshToken = "" ∨ w.cfg.clientId = "" ∨ w.cfg.clientSecret = "" then
    (Except.error refreshConfigErrorMsg, w)
  else
    let data := env.tokenResp (tokenCount w.trace)
    let w1 : World := { w with trace := w.trace ++ [NetEvent.tokenPost] }
    match data.error with
    | some e =>
        if e ≠ "" then (Except.error ("Token refresh failed: " ++ e), w1)
        else applyTokenResponse data w1
    | none => applyTokenResponse data w1

/-- One hexadecimal digit (uppercase, as percent-encoding uses). -/
def hexDigit (n : Nat) : Char :=
  if n < 10 then Char.ofNat ('0'.toNat + n) else Char.ofNat ('A'.toNat + n - 10)

/-- Whether `URLSearchParams` serializes a character verbatim: ASCII
alphanumerics and `*`, `-`, `.`, `_`. -/
def isUrlSafe (c : Char) : Bool :=
  ('a' ≤ c ∧ c ≤ 'z') ∨ ('A' ≤ c ∧ c ≤ 'Z') ∨ ('0' ≤ c ∧ c ≤ '9')
    ∨ c = '*' ∨ c = '-' ∨ c = '.' ∨ c = '_'

/-- Percent-encode one character per application/x-www-form-urlencoded
(space becomes `+`); an ASCII-range model of the JS builtin. -/
def encodeUrlChar (c : Char) : String :=
  if isUrlSafe c then String.singleton c
  else if c = ' ' then "+"
  else "%" ++ String.mk [hexDigit (c.toNat / 16 % 16), hexDigit (c.toNat % 16)]

/-- Percent-encode a component string. -/
def encodeUrlComponent (s : String) : String :=
  String.join (s.data.map encodeUrlChar)

/-- Model of `new URLSearchParams(q).toString()`: `k=v` pairs joined by `&`,
keys and values percent-encoded. -/
def urlEncodeParams (q : List (String × String)) : String :=
  String.intercalate "&" (q.map fun kv => encodeUrlComponent kv.1 ++ "=" ++ encodeUrlComponent kv.2)

/-- Lines 68-72 of zoho-client.ts: the request URL is
`config.apiDomain ++ "/crm/v7/" ++ path`, and when `queryParams` is present
(any object, truthy in JS) a `?` plus the serialized query map is appended
unconditionally. -/
def buildUrl (cfg : ZohoConfig) (path : String) (queryParams : Option (List (String × String))) : String :=
  let url := cfg.apiDomain ++ "/crm/v7/" ++ path
  match queryParams with
  | some q => url ++ "?" ++ urlEncodeParams q
  | none => url

/-- Path that the `zoho_get_fields` tool handler passes to `zohoRequest`
(src/tools metadata registration, `registerMetadataTools`): the module is
interpolated into the path itself, `settings/fields?module=...`. -/
def getFieldsPath (module : String) : String :=
  "settings/fields?module=" ++ module

/-- Query map that the `zoho_get_fields` handler passes alongside
`getFieldsPath`: always an object (empty when `type` is absent). -/
def getFieldsQuery (type? : Option String) : List (String × String) :=
  match type? with
  | some t => [("type", t)]
  | none => []

/-- Step 1 of dispatch (zoho-client.ts lines 64-66): when the access token is
falsy, await one `refreshAccessToken`, propagating its failure. -/
def ensureToken (env : Env) (w : World) : Except String Unit × World :=
  if w.cfg.accessToken = "" then
    match refreshAccessToken env w with
    | (Except.ok _, w1) => (Except.ok (), w1)
    | (Except.error e, w1) => (Except.error e, w1)
  else (Except.ok (), w)

/-- Steps 2-4 of dispatch (zoho-client.ts lines 68-85): build the URL and
headers and perform the `fetch`, recorded as one `apiFetch` event whose
response the environment supplies. -/
def sendRequest (env : Env) (w : World) (path method : String) (hasBody : Bool)
    (queryParams : Option (List (String × String))) : HttpResponse × World :=
  let url := buildUrl w.cfg path queryParams
  let resp := env.httpResp (httpCount w.trace)
  (resp,
    { w with trace := w.trace ++
        [NetEvent.apiFetch url method ("Zoho-oauthtoken " ++ w.cfg.accessToken) hasBody] })

/-- Model of the engine-specific `SyntaxError` message thrown by `JSON.parse`
on the success path (zoho-client.ts line 116); no claim depends on its text. -/
def jsonParseFailureMsg (s : String) : String :=
  "Unexpected token in JSON: " ++ s

/-- The `errorDetail` computed at zoho-client.ts lines 100-106: the
pretty-printed JSON of the body when `JSON.parse` succeeds on it, the raw
body text verbatim otherwise. -/
def errorDetail (resp : HttpResponse) : String :=
  match resp.bodyJson with
  | some j => Json.prettyPrint j
  | none => resp.bodyText

/-- Lines 93-117 of zoho-client.ts, after the 401-retry guard: the 204
synthetic value, the non-ok error, the empty-body synthetic value, and the
parsed body.  `response.ok` is `200 ≤ status ≤ 299`. -/
def handleResponse (resp : HttpResponse) : Except String Json :=
  if resp.status = 204 then
    Except.ok (Json.obj (JsonFields.cons "status" (Json.str "success")
      (JsonFields.cons "message" (Json.str "No content") JsonFields.nil)))
  else if ¬ (200 ≤ resp.status ∧ resp.status ≤ 299) then
    Except.error ("Zoho API error (" ++ toString resp.status ++ "): " ++ errorDetail resp)
  else if resp.bodyText = "" then
    Except.ok (Json.obj (JsonFields.cons "status" (Json.str "success") JsonFields.nil))
  else
    match resp.bodyJson with
    | some j => Except.ok j
    | none => Except.error (jsonParseFailureMsg resp.bodyText)

/-- Embedding of `zohoRequest` called with `retried = true`: the guard
`response.status === 401 && !retried` fails, so no further refresh or retry
can occur — the recursion of the source is bounded at depth 2 by
construction. -/
def zohoRequestRetried (env : Env) (path method : String) (body : Option Json)
    (queryParams : Option (List (String × String))) (w : World) : Except String Json × World :=
  match ensureToken env w with
  | (Except.error e, w1) => (Except.error e, w1)
  | (Except.ok _, w1) =>
    let (resp, w2) := sendRequest env w1 path method body.isSome queryParams
    (handleResponse resp, w2)

/-- Embedding of `zohoRequest` (zoho-client.ts lines 57-118) at its entry
point `retried = false`: on a 401, one `refreshAccessToken` then the single
recursive call with `retried := true`, which is `zohoRequestRetried`. -/
def zohoRequest (env : Env) (path method : String) (body : Option Json)
    (queryParams : Option (List (String × String))) (w : World) : Except String Json × World :=
  match ensureToken env w with
  | (Except.error e, w1) => (Except.error e, w1)
  | (Except.ok _, w1) =>
    let (resp, w2) := sendRequest env w1 path method body.isSome queryParams
    if resp.status = 401 then
      match refreshAccessToken env w2 with
      | (Except.error e, w3) => (Except.error e, w3)
      | (Except.ok _, w3) => zohoRequestRetried env path method body queryParams w3
    else
      (handleResponse resp, w2)

/-- The fixed response-size limit of zoho-client.ts (line 3). -/
def CHARACTER_LIMIT : Nat := 100000

/-- The fixed truncation message appended by `truncateResponse`
(zoho-client.ts line 124). -/
def truncationMessage : String :=
  "\n\n[Response truncated. Use pagination or filters to narrow results.]"

/-- Embedding of `truncateResponse` (zoho-client.ts lines 120-128);
`text.substring(0, CHARACTER_LIMIT)` is `String.take`. -/
def truncateResponse (text : String) : String :=
  if text.length > CHARACTER_LIMIT then
    text.take CHARACTER_LIMIT ++ truncationMessage
  else
    text

/-- Embedding of `formatResponse` (zoho-client.ts lines 130-133). -/
def formatResponse (data : Json) : String :=
  truncateResponse (Json.prettyPrint data)

/-- One `{ type: "text", text }` content block of a tool result. -/
structure ToolContent where
  type : String
  text : String
  deriving Repr, DecidableEq

/-- The envelope returned by every tool handler: content blocks plus the
`isError` flag (absent on success is modelled as `false`). -/
structure ToolResponse where
  content : List ToolContent
  isError : Bool
  deriving Repr, DecidableEq

/-- Embedding of `buildToolResponse` (zoho-client.ts lines 135-141). -/
def buildToolResponse (data : Json) : ToolResponse :=
  { content := [{ type := "text", text := formatResponse data }], isError := false }

/-- A JavaScript failure value as received by `buildErrorResponse`: either an
`Error` instance (carrying its `message`) or any other value (carrying its
`String(error)` conversion). -/
inductive JsFailure where
  | errObj (message : String) : JsFailure
  | nonError (stringForm : String) : JsFailure
  deriving Repr, DecidableEq

/-- Embedding of `buildErrorResponse` (zoho-client.ts lines 143-152):
`error instanceof Error ? error.message : String(error)` is the match. -/
def buildErrorResponse (e : JsFailure) : ToolResponse :=
  let message := match e with
    | .errObj m => m
    | .nonError s => s
  { content := [{ type := "text", text := "Error: " ++ message }], isError := true }

/-! ### Concrete environments and configurations used by the witnesses -/

/-- A concrete environment with an empty token response and a 200/empty-body
API response, used by several witnesses. -/
def envBasic : Env :=
  ⟨fun _ => ⟨"", "", 0, "", none, none⟩, fun _ => ⟨200, "", none⟩⟩

/-- A configuration with all credentials present and a non-empty access
token, used by several witnesses. -/
def cfgFull : ZohoConfig :=
  ⟨"tok0", "rt", "cid", "cs", "https://www.zohoapis.com", "https://accounts.zoho.com"⟩

/-- A token endpoint whose response carries `error: ""` — an `error` field
that is present but falsy in JavaScript. -/
def envEmptyError : Env :=
  ⟨fun _ => ⟨"tokC4", "Bearer", 3600, "", none, some ""⟩, fun _ => ⟨200, "", none⟩⟩

/-- A token endpoint reporting `invalid_code`. -/
def envAuthError : Env :=
  ⟨fun _ => ⟨"", "", 0, "", none, some "invalid_code"⟩, fun _ => ⟨200, "", none⟩⟩

/-- A token endpoint answering with a fresh token and a redirected API
domain. -/
def envNewDomain : Env :=
  ⟨fun _ => ⟨"tokNew", "Bearer", 3600, "https://www.zohoapis.eu", none, none⟩,
    fun _ => ⟨200, "", none⟩⟩

/-- An API that always answers 401 while the token endpoint answers with a
fresh valid token. -/
def envAlways401 : Env :=
  ⟨fun _ => ⟨"tok1", "Bearer", 3600, "", none, none⟩, fun _ => ⟨401, "unauth", none⟩⟩

/-- An API that answers 500 with the non-JSON body `boom`. -/
def envBoom500 : Env :=
  ⟨fun _ => ⟨"tok1", "Bearer", 3600, "", none, none⟩, fun _ => ⟨500, "boom", none⟩⟩

/-- An API that answers 401 first and then 400 with the JSON body
`{"code":"INVALID"}`. -/
def env401Then400 : Env :=
  ⟨fun _ => ⟨"tok1", "Bearer", 3600, "", none, none⟩,
    fun n => if n = 0 then ⟨401, "expired", none⟩ else
      ⟨400, "\x7b\"code\":\"INVALID\"\x7d",
        some (Json.obj (JsonFields.cons "code" (Json.str "INVALID") JsonFields.nil))⟩⟩

/-- An API that answers 204 with a non-empty body that would not even parse
as JSON. -/
def env204 : Env :=
  ⟨fun _ => ⟨"tok1", "Bearer", 3600, "", none, none⟩, fun _ => ⟨204, "ignored body", none⟩⟩

/-! ### Step lemmas used by the dispatch proofs -/

@[simp] theorem World.cfg_init (cfg : ZohoConfig) : (World.init cfg).cfg = cfg := rfl

@[simp] theorem World.trace_init (cfg : ZohoConfig) : (World.init cfg).trace = [] := rfl

theorem ensureToken_id (env : Env) (w : World) (h : w.cfg.accessToken ≠ "") :
    ensureToken env w = (Except.ok (), w) := by
  simp [ensureToken, h]

theorem refresh_ok_spec (env : Env) (w : World)
    (h1 : w.cfg.refreshToken ≠ "") (h2 : w.cfg.clientId ≠ "") (h3 : w.cfg.clientSecret ≠ "")
    (herr : (env.tokenResp (tokenCount w.trace)).error = none ∨
            (env.tokenResp (tokenCount w.trace)).error = some "") :
    ∃ w1, refreshAccessToken env w =
        (Except.ok (env.tokenResp (tokenCount w.trace)).access_token, w1) ∧
      w1.trace = w.trace ++ [NetEvent.tokenPost] ∧
      w1.cfg.accessToken = (env.tokenResp (tokenCount w.trace)).access_token := by
  have hcond : ¬(w.cfg.refreshToken = "" ∨ w.cfg.clientId = "" ∨ w.cfg.clientSecret = "") := by
    simp [h1, h2, h3]
  refine ⟨(refreshAccessToken env w).2, ?_, ?_, ?_⟩ <;>
    rcases herr with herr | herr <;>
      by_cases hd : (env.tokenResp (tokenCount w.trace)).api_domain = "" <;>
        simp [refreshAccessToken, hcond, herr, hd, applyTokenResponse]

theorem refresh_trace_extends (env : Env) (w : World) :
    ∃ t, (refreshAccessToken env w).2.trace = w.trace ++ t := by
  by_cases h : w.cfg.refreshToken = "" ∨ w.cfg.clientId = "" ∨ w.cfg.clientSecret = ""
  · exact ⟨[], by simp [refreshAccessToken, h]⟩
  · rcases he : (env.tokenResp (tokenCount w.trace)).error with _ | e
    · exact ⟨[NetEvent.tokenPost], by simp [refreshAccessToken, h, he, applyTokenResponse]⟩
    · by_cases hne : e = ""
      · exact ⟨[NetEvent.tokenPost],
          by simp [refreshAccessToken, h, he, hne, applyTokenResponse]⟩
      · exact ⟨[NetEvent.tokenPost],
          by simp [refreshAccessToken, h, he, hne, applyTokenResponse]⟩

theorem ensureToken_trace_extends (env : Env) (w : World) :
    ∃ t, (ensureToken env w).2.trace = w.trace ++ t := by
  by_cases h : w.cfg.accessToken = ""
  · obtain ⟨t, ht⟩ := refresh_trace_extends env w
    rcases hr : refreshAccessToken env w with ⟨r, w1⟩
    refine ⟨t, ?_⟩
    have : w1.trace = w.trace ++ t := by rw [hr] at ht; exact ht
    cases r <;> simp [ensureToken, h, hr, this]
  · exact ⟨[], by simp [ensureToken, h]⟩

theorem sendRequest_trace (env : Env) (w : World) (path method : String) (hasBody : Bool)
    (qp : Option (List (String × String))) :
    (sendRequest env w path method hasBody qp).2.trace =
      w.trace ++ [NetEvent.apiFetch (buildUrl w.cfg path qp) method
        ("Zoho-oauthtoken " ++ w.cfg.accessToken) hasBody] := rfl

theorem zohoRequestRetried_trace_extends (env : Env) (path method : String)
    (body : Option Json) (qp : Option (List (String × String))) (w : World) :
    ∃ t, (zohoRequestRetried env path method body qp w).2.trace = w.trace ++ t := by
  obtain ⟨t, ht⟩ := ensureToken_trace_extends env w
  rcases he : ensureToken env w with ⟨r, w1⟩
  have hw1 : w1.trace = w.trace ++ t := by rw [he] at ht; exact ht
  cases r with
  | error e => exact ⟨t, by simp [zohoRequestRetried, he, hw1]⟩
  | ok _ =>
    refine ⟨t ++ [NetEvent.apiFetch (buildUrl w1.cfg path qp) method
      ("Zoho-oauthtoken " ++ w1.cfg.accessToken) body.isSome], ?_⟩
    simp [zohoRequestRetried, he, sendRequest, hw1]

theorem zohoRequest_trace_shape (env : Env) (path method : String) (body : Option Json)
    (qp : Option (List (String × String))) (w w1 : World)
    (he : ensureToken env w = (Except.ok (), w1)) :
    ∃ rest, (zohoRequest env path method body qp w).2.trace =
      w1.trace ++ NetEvent.apiFetch (buildUrl w1.cfg path qp) method
        ("Zoho-oauthtoken " ++ w1.cfg.accessToken) body.isSome :: rest := by
  simp only [zohoRequest, he, sendRequest]
  by_cases h401 : (env.httpResp (httpCount w1.trace)).status = 401
  · simp only [h401, if_true]
    split
    · next e w3 heq =>
      obtain ⟨t, ht⟩ := refresh_trace_extends env
        { w1 with trace := w1.trace ++ [NetEvent.apiFetch (buildUrl w1.cfg path qp) method
            ("Zoho-oauthtoken " ++ w1.cfg.accessToken) body.isSome] }
      rw [heq] at ht
      exact ⟨t, by simpa using ht⟩
    · next s w3 heq =>
      obtain ⟨t, ht⟩ := refresh_trace_extends env
        { w1 with trace := w1.trace ++ [NetEvent.apiFetch (buildUrl w1.cfg path qp) method
            ("Zoho-oauthtoken " ++ w1.cfg.accessToken) body.isSome] }
      rw [heq] at ht
      obtain ⟨t2, ht2⟩ := zohoRequestRetried_trace_extends env path method body qp w3
      refine ⟨t ++ t2, ?_⟩
      rw [ht2, ht]
      simp
  · simp only [h401, if_false]
    exact ⟨[], by simp⟩

theorem refreshesBeforeFirstHttp_cons_apiFetch (u m a : String) (hb : Bool)
    (l : List NetEvent) :
    refreshesBeforeFirstHttp (NetEvent.apiFetch u m a hb :: l) = 0 := by
  simp [refreshesBeforeFirstHttp, tokenCount, isApiFetch]

theorem httpCount_cons_apiFetch (u m a : String) (hb : Bool) (l : List NetEvent) :
    1 ≤ httpCount (NetEvent.apiFetch u m a hb :: l) := by
  simp [httpCount, isApiFetch, List.countP_cons]

/-! ### Claim theorems -/

/-- C3: for every Session State in which `refresh_token`, `client_id`, or
`client_secret` is empty, `refreshAccessToken` fails immediately with the
configuration-error message, and the returned world is the input world
unchanged — same Session State and same trace, hence zero network calls. -/
theorem refreshAccessToken_missing_credentials (env : Env) (w : World)
    (h : w.cfg.refreshToken = "" ∨ w.cfg.clientId = "" ∨ w.cfg.clientSecret = "") :
    refreshAccessToken env w = (Except.error refreshConfigErrorMsg, w) := by
  simp [refreshAccessToken, h]

theorem refreshAccessToken_missing_credentials_witness :
    ({ cfgFull with refreshToken := "" }.refreshToken = "" ∨
      { cfgFull with refreshToken := "" }.clientId = "" ∨
      { cfgFull with refreshToken := "" }.clientSecret = "") ∧
    refreshAccessToken envBasic (World.init { cfgFull with refreshToken := "" }) =
      (Except.error refreshConfigErrorMsg, World.init { cfgFull with refreshToken := "" }) :=
  ⟨Or.inl rfl,
    refreshAccessToken_missing_credentials envBasic
      (World.init { cfgFull with refreshToken := "" }) (Or.inl rfl)⟩

/-- C4 counterexample: a token response whose `error` field is present (the
empty string) does not make `refreshAccessToken` raise — `if (data.error)`
is falsy on `""` — and Session State IS written: the call returns
`Except.ok "tokC4"` and overwrites the access token, refuting the claim that
every response containing an `error` field raises before any write. -/
theorem refresh_error_field_counterexample :
    (envEmptyError.tokenResp 0).error = some "" ∧
    (refreshAccessToken envEmptyError (World.init cfgFull)).1 = Except.ok "tokC4" ∧
    (refreshAccessToken envEmptyError (World.init cfgFull)).2.cfg.accessToken = "tokC4" := by
  refine ⟨rfl, ?_, ?_⟩ <;> rfl

/-- C4 (amended to non-empty error strings): for every token response whose
`error` field holds a non-empty string, `refreshAccessToken` fails with
exactly `"Token refresh failed: " ++ error` and the Session State is
unchanged — nothing is written before the error is raised. -/
theorem refreshAccessToken_error_response (env : Env) (w : World) (e : String)
    (h1 : w.cfg.refreshToken ≠ "") (h2 : w.cfg.clientId ≠ "") (h3 : w.cfg.clientSecret ≠ "")
    (he : (env.tokenResp (tokenCount w.trace)).error = some e) (hne : e ≠ "") :
    (refreshAccessToken env w).1 = Except.error ("Token refresh failed: " ++ e) ∧
    (refreshAccessToken env w).2.cfg = w.cfg := by
  have hcond : ¬(w.cfg.refreshToken = "" ∨ w.cfg.clientId = "" ∨ w.cfg.clientSecret = "") := by
    simp [h1, h2, h3]
  simp [refreshAccessToken, hcond, he, hne]

theorem refreshAccessToken_error_response_witness :
    cfgFull.refreshToken ≠ "" ∧ cfgFull.clientId ≠ "" ∧ cfgFull.clientSecret ≠ "" ∧
    (envAuthError.tokenResp 0).error = some "invalid_code" ∧ "invalid_code" ≠ "" ∧
    (refreshAccessToken envAuthError (World.init cfgFull)).1 =
      Except.error ("Token refresh failed: " ++ "invalid_code") ∧
    (refreshAccessToken envAuthError (World.init cfgFull)).2.cfg = cfgFull := by
  have h := refreshAccessToken_error_response envAuthError (World.init cfgFull) "invalid_code"
    (by decide) (by decide) (by decide) rfl (by decide)
  exact ⟨by decide, by decide, by decide, rfl, by decide, h.1, h.2⟩

/-- C5: every successful `refreshAccessToken` returns the token-response
access token, writes it into Session State, overwrites `apiDomain` exactly
when the response carries a non-empty `api_domain`, and leaves
`refreshToken`, `clientId`, `clientSecret` and `accountsDomain` unchanged. -/
theorem refreshAccessToken_success_frame (env : Env) (w : World) (data : TokenResponse)
    (hd : env.tokenResp (tokenCount w.trace) = data)
    (h1 : w.cfg.refreshToken ≠ "") (h2 : w.cfg.clientId ≠ "") (h3 : w.cfg.clientSecret ≠ "")
    (herr : data.error = none ∨ data.error = some "") :
    (refreshAccessToken env w).1 = Except.ok data.access_token ∧
    (refreshAccessToken env w).2.cfg.accessToken = data.access_token ∧
    (refreshAccessToken env w).2.cfg.apiDomain =
      (if data.api_domain ≠ "" then data.api_domain else w.cfg.apiDomain) ∧
    (refreshAccessToken env w).2.cfg.refreshToken = w.cfg.refreshToken ∧
    (refreshAccessToken env w).2.cfg.clientId = w.cfg.clientId ∧
    (refreshAccessToken env w).2.cfg.clientSecret = w.cfg.clientSecret ∧
    (refreshAccessToken env w).2.cfg.accountsDomain = w.cfg.accountsDomain := by
  have hcond : ¬(w.cfg.refreshToken = "" ∨ w.cfg.clientId = "" ∨ w.cfg.clientSecret = "") := by
    simp [h1, h2, h3]
  rcases herr with herr | herr <;>
    by_cases hdm : data.api_domain = "" <;>
      simp [refreshAccessToken, hcond, hd, herr, hdm, applyTokenResponse]

theorem refreshAccessToken_success_frame_witness :
    cfgFull.refreshToken ≠ "" ∧
    (envNewDomain.tokenResp 0).error = none ∧
    (refreshAccessToken envNewDomain (World.init cfgFull)).1 = Except.ok "tokNew" ∧
    (refreshAccessToken envNewDomain (World.init cfgFull)).2.cfg.accessToken = "tokNew" ∧
    (refreshAccessToken envNewDomain (World.init cfgFull)).2.cfg.apiDomain =
      "https://www.zohoapis.eu" ∧
    (refreshAccessToken envNewDomain (World.init cfgFull)).2.cfg.refreshToken = "rt" := by
  have h := refreshAccessToken_success_frame envNewDomain (World.init cfgFull)
    (envNewDomain.tokenResp 0) rfl (by decide) (by decide) (by decide) (Or.inl rfl)
  refine ⟨by decide, rfl, h.1, h.2.1, ?_, ?_⟩
  · rw [h.2.2.1]; decide
  · rw [h.2.2.2.1]; rfl

/-- C7: the response formatter truncates exactly at the 100,000-character
limit — a longer string becomes its first 100,000 characters followed by the
fixed truncation message, and a string of at most 100,000 characters is
returned unmodified. -/
theorem truncateResponse_spec (s : String) :
    (s.length > 100000 → truncateResponse s = s.take 100000 ++ truncationMessage) ∧
    (s.length ≤ 100000 → truncateResponse s = s) := by
  constructor <;> intro h
  · rw [truncateResponse, if_pos (by simpa [CHARACTER_LIMIT] using h)]; rfl
  · rw [truncateResponse, if_neg (by simp [CHARACTER_LIMIT]; omega)]

theorem truncateResponse_spec_witness :
    ((String.mk (List.replicate 100001 'a')).length > 100000 ∧
      truncateResponse (String.mk (List.replicate 100001 'a')) =
        (String.mk (List.replicate 100001 'a')).take 100000 ++ truncationMessage) ∧
    (("abc" : String).length ≤ 100000 ∧ truncateResponse "abc" = "abc") := by
  have hlen : (String.mk (List.replicate 100001 'a')).length = 100001 := by
    rw [String.length]
    exact List.length_replicate _ _
  have hlong : (String.mk (List.replicate 100001 'a')).length > 100000 := by
    rw [hlen]; decide
  have hshort : ("abc" : String).length ≤ 100000 := by decide
  exact ⟨⟨hlong, (truncateResponse_spec _).1 hlong⟩,
    ⟨hshort, (truncateResponse_spec _).2 hshort⟩⟩

/-- C9: with a query map present, the dispatcher's URL is
`apiDomain ++ "/crm/v7/" ++ path ++ "?" ++ urlencoded(query)` — the `?`
separator is appended unconditionally — and in particular for the
`zoho_get_fields` handler, whose path already embeds
`settings/fields?module=...`, the resulting URL contains two `?`
characters. -/
theorem buildUrl_query_append :
    (∀ (cfg : ZohoConfig) (path : String) (q : List (String × String)),
      buildUrl cfg path (some q) =
        cfg.apiDomain ++ "/crm/v7/" ++ path ++ "?" ++ urlEncodeParams q) ∧
    (buildUrl cfgFull (getFieldsPath "Leads")
        (some (getFieldsQuery (some "all")))).data.count '?' = 2 := by
  constructor
  · intro cfg path q; rfl
  · decide

/-- C10: the error mapper wraps every failure value as
`{ content := [{ type := "text", text := "Error: " ++ message }], isError := true }`,
where the message is the `message` field of a structured `Error` and the
string conversion of any other value. -/
theorem buildErrorResponse_shape :
    (∀ m : String, buildErrorResponse (JsFailure.errObj m) =
      { content := [{ type := "text", text := "Error: " ++ m }], isError := true }) ∧
    (∀ s : String, buildErrorResponse (JsFailure.nonError s) =
      { content := [{ type := "text", text := "Error: " ++ s }], isError := true }) :=
  ⟨fun _ => rfl, fun _ => rfl⟩

/-- C1: with a valid token at entry, a 401 on the first attempt triggers
exactly one refresh (one token-endpoint call in the whole trace) followed by
exactly one retried request; when the retry also returns 401 the dispatch
terminates with an error — the thrown message is the API-error rendering of
the second 401 — and the final trace holds exactly two HTTP attempts and one
refresh, so there is no third attempt and no further refresh (the embedding
of the `retried = true` call, `zohoRequestRetried`, cannot recurse, bounding
the recursion at depth 2 by construction). -/
theorem zohoRequest_second_401_bounded (env : Env) (cfg : ZohoConfig)
    (path method : String) (body : Option Json) (qp : Option (List (String × String)))
    (htok : cfg.accessToken ≠ "")
    (h0 : (env.httpResp 0).status = 401)
    (h1 : (env.httpResp 1).status = 401)
    (hc1 : cfg.refreshToken ≠ "") (hc2 : cfg.clientId ≠ "") (hc3 : cfg.clientSecret ≠ "")
    (herr : (env.tokenResp 0).error = none)
    (hnew : (env.tokenResp 0).access_token ≠ "") :
    (zohoRequest env path method body qp (World.init cfg)).1 =
      Except.error ("Zoho API error (401): " ++ errorDetail (env.httpResp 1)) ∧
    tokenCount (zohoRequest env path method body qp (World.init cfg)).2.trace = 1 ∧
    httpCount (zohoRequest env path method body qp (World.init cfg)).2.trace = 2 := by
  have hcond : ¬(cfg.refreshToken = "" ∨ cfg.clientId = "" ∨ cfg.clientSecret = "") := by
    simp [hc1, hc2, hc3]
  refine ⟨?_, ?_, ?_⟩ <;>
    simp [zohoRequest, zohoRequestRetried, ensureToken, sendRequest,
      handleResponse, refreshAccessToken, applyTokenResponse, htok, hcond, herr, hnew,
      h0, h1, httpCount, tokenCount, isApiFetch, isTokenPost, errorDetail, apply_ite]
  rfl

theorem zohoRequest_second_401_bounded_witness :
    cfgFull.accessToken ≠ "" ∧
    (envAlways401.httpResp 0).status = 401 ∧ (envAlways401.httpResp 1).status = 401 ∧
    (envAlways401.tokenResp 0).error = none ∧ (envAlways401.tokenResp 0).access_token ≠ "" ∧
    (zohoRequest envAlways401 "Leads" "GET" none none (World.init cfgFull)).1 =
      Except.error "Zoho API error (401): unauth" ∧
    tokenCount (zohoRequest envAlways401 "Leads" "GET" none none (World.init cfgFull)).2.trace
      = 1 ∧
    httpCount (zohoRequest envAlways401 "Leads" "GET" none none (World.init cfgFull)).2.trace
      = 2 := by
  have h := zohoRequest_second_401_bounded envAlways401 cfgFull "Leads" "GET" none none
    (by decide) rfl rfl (by decide) (by decide) (by decide) rfl (by decide)
  exact ⟨by decide, rfl, rfl, rfl, by decide, h.1, h.2.1, h.2.2⟩

/-- C2: for every dispatch call, when Session State holds a non-empty access
token at entry no refresh precedes the HTTP request (zero token-endpoint
calls before the first API fetch of the trace), and when the access token is
empty at entry and the refresh succeeds, exactly one refresh call precedes
the first HTTP attempt. -/
theorem zohoRequest_refresh_policy (env : Env) (cfg : ZohoConfig)
    (path method : String) (body : Option Json) (qp : Option (List (String × String))) :
    (cfg.accessToken ≠ "" →
      refreshesBeforeFirstHttp
        (zohoRequest env path method body qp (World.init cfg)).2.trace = 0 ∧
      1 ≤ httpCount (zohoRequest env path method body qp (World.init cfg)).2.trace) ∧
    (cfg.accessToken = "" → cfg.refreshToken ≠ "" → cfg.clientId ≠ "" → cfg.clientSecret ≠ "" →
      ((env.tokenResp 0).error = none ∨ (env.tokenResp 0).error = some "") →
      refreshesBeforeFirstHttp
        (zohoRequest env path method body qp (World.init cfg)).2.trace = 1 ∧
      1 ≤ httpCount (zohoRequest env path method body qp (World.init cfg)).2.trace) := by
  constructor
  · intro htok
    have he : ensureToken env (World.init cfg) = (Except.ok (), World.init cfg) :=
      ensureToken_id env (World.init cfg) htok
    obtain ⟨rest, hshape⟩ := zohoRequest_trace_shape env path method body qp
      (World.init cfg) (World.init cfg) he
    simp only [World.trace_init, List.nil_append] at hshape
    constructor
    · rw [hshape]; exact refreshesBeforeFirstHttp_cons_apiFetch _ _ _ _ _
    · rw [hshape]; exact httpCount_cons_apiFetch _ _ _ _ _
  · intro htok hc1 hc2 hc3 herr
    obtain ⟨w1, hr, htr, hacc⟩ := refresh_ok_spec env (World.init cfg) hc1 hc2 hc3 herr
    have he : ensureToken env (World.init cfg) = (Except.ok (), w1) := by
      simp [ensureToken, htok, hr]
    obtain ⟨rest, hshape⟩ := zohoRequest_trace_shape env path method body qp
      (World.init cfg) w1 he
    simp only [World.trace_init, List.nil_append] at htr
    rw [htr] at hshape
    simp only [List.cons_append, List.nil_append] at hshape
    constructor
    · rw [hshape]
      simp [refreshesBeforeFirstHttp, tokenCount, isApiFetch, isTokenPost]
    · rw [hshape]
      simp [httpCount, List.countP_cons, isApiFetch]

theorem zohoRequest_refresh_policy_witness :
    (refreshesBeforeFirstHttp
        (zohoRequest envBasic "Leads" "GET" none none (World.init cfgFull)).2.trace = 0 ∧
      1 ≤ httpCount (zohoRequest envBasic "Leads" "GET" none none (World.init cfgFull)).2.trace) ∧
    (refreshesBeforeFirstHttp
        (zohoRequest envNewDomain "Leads" "GET" none none
          (World.init { cfgFull with accessToken := "" })).2.trace = 1 ∧
      1 ≤ httpCount (zohoRequest envNewDomain "Leads" "GET" none none
        (World.init { cfgFull with accessToken := "" })).2.trace) :=
  ⟨(zohoRequest_refresh_policy envBasic cfgFull "Leads" "GET" none none).1 (by decide),
    (zohoRequest_refresh_policy envNewDomain { cfgFull with accessToken := "" }
        "Leads" "GET" none none).2
      rfl (by decide) (by decide) (by decide) (Or.inl rfl)⟩

/-- C6: a non-success response (neither a first-attempt 401 nor a 204) makes
the dispatch fail with exactly
`"Zoho API error (" ++ status ++ "): " ++ detail`, where the detail is the
pretty-printed JSON of the body when it parses and the raw body text
verbatim otherwise; the first conjunct covers the first attempt, the second
covers the retried attempt after a first-attempt 401, and the third states
the two shapes of the detail. -/
theorem zohoRequest_api_error_message (env : Env) (cfg : ZohoConfig)
    (path method : String) (body : Option Json) (qp : Option (List (String × String)))
    (htok : cfg.accessToken ≠ "") :
    ((env.httpResp 0).status ≠ 401 → (env.httpResp 0).status ≠ 204 →
      ¬(200 ≤ (env.httpResp 0).status ∧ (env.httpResp 0).status ≤ 299) →
      (zohoRequest env path method body qp (World.init cfg)).1 =
        Except.error ("Zoho API error (" ++ toString (env.httpResp 0).status ++ "): "
          ++ errorDetail (env.httpResp 0))) ∧
    ((env.httpResp 0).status = 401 →
      cfg.refreshToken ≠ "" → cfg.clientId ≠ "" → cfg.clientSecret ≠ "" →
      (env.tokenResp 0).error = none → (env.tokenResp 0).access_token ≠ "" →
      (env.httpResp 1).status ≠ 204 →
      ¬(200 ≤ (env.httpResp 1).status ∧ (env.httpResp 1).status ≤ 299) →
      (zohoRequest env path method body qp (World.init cfg)).1 =
        Except.error ("Zoho API error (" ++ toString (env.httpResp 1).status ++ "): "
          ++ errorDetail (env.httpResp 1))) ∧
    (∀ resp : HttpResponse,
      (∀ j, resp.bodyJson = some j → errorDetail resp = Json.prettyPrint j) ∧
      (resp.bodyJson = none → errorDetail resp = resp.bodyText)) := by
  refine ⟨?_, ?_, ?_⟩
  · intro hs401 hs204 hnotok
    simp [zohoRequest, ensureToken, sendRequest, handleResponse, htok,
      hs401, hs204, hnotok, httpCount, errorDetail]
  · intro h0 hc1 hc2 hc3 herr hnew hs204 hnotok
    have hcond : ¬(cfg.refreshToken = "" ∨ cfg.clientId = "" ∨ cfg.clientSecret = "") := by
      simp [hc1, hc2, hc3]
    by_cases hdm : (env.tokenResp 0).api_domain = "" <;>
      simp [zohoRequest, zohoRequestRetried, ensureToken, sendRequest,
        handleResponse, refreshAccessToken, applyTokenResponse, htok, hcond, herr, hnew,
        h0, hs204, hnotok, httpCount, tokenCount, isApiFetch, isTokenPost, errorDetail, hdm]
  · intro resp
    constructor
    · intro j hj; simp [errorDetail, hj]
    · intro hn; simp [errorDetail, hn]

theorem zohoRequest_api_error_message_witness :
    cfgFull.accessToken ≠ "" ∧
    (envBoom500.httpResp 0).status = 500 ∧ (envBoom500.httpResp 0).bodyJson = none ∧
    (zohoRequest envBoom500 "Leads" "GET" none none (World.init cfgFull)).1 =
      Except.error "Zoho API error (500): boom" ∧
    (env401Then400.httpResp 1).status = 400 ∧
    (zohoRequest env401Then400 "Leads" "GET" none none (World.init cfgFull)).1 =
      Except.error "Zoho API error (400): \x7b\n  \"code\": \"INVALID\"\n\x7d" := by
  have ha := (zohoRequest_api_error_message envBoom500 cfgFull "Leads" "GET" none none
    (by decide)).1 (by decide) (by decide) (by decide)
  have hb := (zohoRequest_api_error_message env401Then400 cfgFull "Leads" "GET" none none
    (by decide)).2.1 rfl (by decide) (by decide) (by decide) rfl (by decide)
    (by decide) (by decide)
  exact ⟨by decide, rfl, rfl, ha, rfl, hb⟩

/-- C8: a 204 response makes the dispatch return the synthetic value
`{status: "success", message: "No content"}`; the environment, hence the
response body text and its parse, is universally quantified, so the result
does not depend on the body in any way. -/
theorem zohoRequest_204_no_content (env : Env) (cfg : ZohoConfig)
    (path method : String) (body : Option Json) (qp : Option (List (String × String)))
    (htok : cfg.accessToken ≠ "") (h204 : (env.httpResp 0).status = 204) :
    (zohoRequest env path method body qp (World.init cfg)).1 =
      Except.ok (Json.obj (JsonFields.cons "status" (Json.str "success")
        (JsonFields.cons "message" (Json.str "No content") JsonFields.nil))) := by
  simp [zohoRequest, ensureToken, sendRequest, handleResponse, htok, h204, httpCount]

theorem zohoRequest_204_no_content_witness :
    cfgFull.accessToken ≠ "" ∧ (env204.httpResp 0).status = 204 ∧
    (zohoRequest env204 "Leads" "GET" none none (World.init cfgFull)).1 =
      Except.ok (Json.obj (JsonFields.cons "status" (Json.str "success")
        (JsonFields.cons "message" (Json.str "No content") JsonFields.nil))) :=
  ⟨by decide, rfl,
    zohoRequest_204_no_content env204 cfgFull "Leads" "GET" none none (by decide) rfl⟩

end ZohoClient
